import Mathlib

/-!
Verification of the JiraAPI access layer of the field-service dashboard
(src/utils/jira_api.py, src/utils/messages.py, src/streamlit_app.py).

The Python code works on JSON dictionaries. A dictionary entry is modelled by
`Slot`: the key may be absent, present with the value `null`, or present with a
value; this is exactly the distinction Python's `dict.get` makes (`get(k)`
collapses absent and null to `None`, while `get(k, d)` applies the default only
when the key is absent). Fallible Python code (an uncaught exception) is
modelled with `Except`: an `Except.error` value is an exception crossing the
function's boundary. Network calls are modelled by passing the mocked
transport outcome (or, for pagination, the list of per-call outcomes) as an
explicit argument.
-/

set_option autoImplicit false

namespace Jira

/-- A JSON object entry as Python sees it: the key may be absent, present with
the value null, or present with a value of type `α`. -/
inductive Slot (α : Type) where
  | absent
  | null
  | val (a : α)
deriving DecidableEq

/-- Python `dict.get(k)`: `None` (here `none`) when the key is absent or its
value is null. -/
def Slot.get {α : Type} : Slot α → Option α
  | .val a => some a
  | _ => none

/-- Python `dict.get(k, d)`: the default applies only when the key is absent,
so a null entry still comes back as `None` (here `none`). -/
def Slot.getD {α : Type} : Slot α → α → Option α
  | .absent, d => some d
  | .null, _ => none
  | .val a, _ => some a

/-! ## Issue grouping (`JiraAPI.agrupar_chamados`, src/utils/jira_api.py 182-198) -/

/-- The `fields` object of a raw issue, restricted to the entries
`agrupar_chamados` reads. A select-typed custom field carries an object whose
`value` entry may itself be missing (payload `Option String`, `none` when the
object has no `value` key). -/
structure RawFields where
  customfield_14954 : Slot (Option String)
  customfield_14829 : Slot String
  customfield_14825 : Slot (Option String)
  customfield_12374 : Slot String
  customfield_12271 : Slot String
  customfield_11948 : Slot (Option String)
  customfield_11993 : Slot String
  customfield_11994 : Slot String
  customfield_12036 : Slot String
deriving DecidableEq

/-- The empty dictionary `{}` that `issue.get("fields", {})` substitutes when
the issue has no `fields` key. -/
def emptyRawFields : RawFields :=
  ⟨.absent, .absent, .absent, .absent, .absent, .absent, .absent, .absent, .absent⟩

/-- A raw issue as `agrupar_chamados` reads it: its `key` entry and its
`fields` object. -/
structure RawIssue where
  key : Slot String
  fields : Slot RawFields
deriving DecidableEq

/-- The projected record `agrupar_chamados` appends to a store's group
(lines 187-197). `key` and `data_agendada` have no default in the source, so
they can be `None`; the other text fields can be `None` only via a null entry
(since `dict.get(k, d)` does not catch null). -/
structure Chamado where
  key : Option String
  pdv : Option String
  ativo : String
  problema : Option String
  endereco : Option String
  estado : String
  cep : Option String
  cidade : Option String
  data_agendada : Option String
deriving DecidableEq

/-- Python `AttributeError` message raised by `None.get(...)`. -/
def attributeError : String := "AttributeError: NoneType object has no attribute get"

/-- Evaluation of `f.get(cf, {}).get("value", d)` on a select field: an absent
key yields the default via the empty dict, a null entry raises
`AttributeError` (`None.get`), and an object yields its `value` entry or the
default. -/
def selectValue (s : Slot (Option String)) (d : String) : Except String String :=
  match s with
  | .absent => .ok d
  | .null => .error attributeError
  | .val v => .ok (v.getD d)

/-- Evaluation of `(f.get(cf) or {}).get("value", d)` (line 193, the `estado`
field): absent and null both fall back to the empty dict, so only a present
object with a `value` entry escapes the default. -/
def selectValueOr (s : Slot (Option String)) (d : String) : String :=
  match s with
  | .val (some v) => v
  | _ => d

/-- The per-issue body of the `agrupar_chamados` loop (lines 185-197): fetch
the `fields` dict (empty when absent, `AttributeError` on the first `.get`
when null), compute the store key (line 186) and build the projected record.
Returns the pair (store key, record). -/
def projectChamado (issue : RawIssue) : Except String (String × Chamado) := do
  let f ← match issue.fields with
    | .absent => Except.ok emptyRawFields
    | .null => Except.error attributeError
    | .val m => Except.ok m
  let loja ← selectValue f.customfield_14954 "Loja Desconhecida"
  let ativo ← selectValue f.customfield_14825 "--"
  Except.ok (loja,
    ⟨issue.key.get,
     f.customfield_14829.getD "--",
     ativo,
     f.customfield_12374.getD "--",
     f.customfield_12271.getD "--",
     selectValueOr f.customfield_11948 "--",
     f.customfield_11993.getD "--",
     f.customfield_11994.getD "--",
     f.customfield_12036.get⟩)

/-- Appending to `defaultdict(list)`: the grouped view is an association list
whose keys appear in first-insertion order and whose groups keep input
order. -/
def addToGroup (gs : List (String × List Chamado)) (k : String) (c : Chamado) :
    List (String × List Chamado) :=
  match gs with
  | [] => [(k, [c])]
  | (k₀, cs) :: rest =>
    if k₀ = k then (k₀, cs ++ [c]) :: rest else (k₀, cs) :: addToGroup rest k c

/-- The `agrupar_chamados` loop over the issue list, carrying the groups built
so far; a projection failure (an uncaught `AttributeError`) aborts the loop. -/
def agruparGo (gs : List (String × List Chamado)) :
    List RawIssue → Except String (List (String × List Chamado))
  | [] => Except.ok gs
  | issue :: rest =>
    match projectChamado issue with
    | .ok (loja, c) => agruparGo (addToGroup gs loja c) rest
    | .error e => .error e

/-- `JiraAPI.agrupar_chamados` (src/utils/jira_api.py 182-198). -/
def agrupar_chamados (issues : List RawIssue) :
    Except String (List (String × List Chamado)) :=
  agruparGo [] issues

/-- The group stored under key `k` of a grouped view (empty when the key is
missing). -/
def groupOf : List (String × List Chamado) → String → List Chamado
  | [], _ => []
  | (k₀, cs) :: rest, k => if k₀ = k then cs else groupOf rest k

/-- Total number of records over all groups:
`sum(len(v) for v in result.values())`. -/
def sumLens (gs : List (String × List Chamado)) : Nat :=
  (gs.map (fun p => p.2.length)).sum

/-- An issue the projection completes on (no `AttributeError`). -/
def projectable (i : RawIssue) : Bool := (projectChamado i).isOk

/-- The records the grouped view owes to store key `k`: the projections of the
issues whose store key is `k`, in input order. -/
def chamadosOf (issues : List RawIssue) (k : String) : List Chamado :=
  issues.filterMap (fun i =>
    match (projectChamado i).toOption with
    | some (l, c) => if l = k then some c else none
    | none => none)

def issueA : RawIssue :=
  ⟨.val "FSA-1",
   .val ⟨.val (some "Loja 1"), .val "12", .val (some "PINPAD"), .absent, .absent,
         .absent, .absent, .absent, .absent⟩⟩

def issueB : RawIssue :=
  ⟨.val "FSA-2",
   .val ⟨.val (some "Loja 1"), .absent, .absent, .absent, .absent,
         .absent, .absent, .absent, .absent⟩⟩

/-- A raw issue whose `customfield_14954` entry is present with value null:
`f.get("customfield_14954", {})` then yields `None` and line 186 raises
`AttributeError`. -/
def badIssueNullLoja : RawIssue :=
  ⟨.absent,
   .val ⟨.null, .absent, .absent, .absent, .absent, .absent, .absent, .absent, .absent⟩⟩

/-- The issue `{}`: no `key` entry and no `fields` entry. -/
def emptyRawIssue : RawIssue := ⟨.absent, .absent⟩

/-- The record `agrupar_chamados` builds for the issue `{}`. -/
def defaultChamado : Chamado :=
  ⟨none, some "--", "--", some "--", some "--", "--", some "--", some "--", none⟩

/-- True when neither the `fields` object nor the `customfield_14954` or
`customfield_14825` select entry is null. -/
def noNullSelects (i : RawIssue) : Bool :=
  match i.fields with
  | .absent => true
  | .null => false
  | .val m =>
    (match m.customfield_14954 with | .null => false | _ => true) &&
    (match m.customfield_14825 with | .null => false | _ => true)

/-! ## Duplicate detection (`verificar_duplicidade`, src/utils/messages.py 45-57) -/

/-- A record as `verificar_duplicidade` reads it: only the `pdv` and `ativo`
entries, through `ch.get(...)` (an absent entry collapses to `None`). -/
structure DupRecord where
  pdv : Option String
  ativo : Option String
deriving DecidableEq

/-- The grouping key `(ch.get("pdv"), ch.get("ativo"))` (line 52). -/
def dupKey (c : DupRecord) : Option String × Option String := (c.pdv, c.ativo)

/-- The loop of `verificar_duplicidade`: `seen` is the set of keys already
met, `dups` the duplicate set (both Python sets, modelled as repeat-free lists
in insertion order). -/
def dupGo : List DupRecord → List (Option String × Option String) →
    List (Option String × Option String) → List (Option String × Option String)
  | [], _, dups => dups
  | c :: rest, seen, dups =>
    if dupKey c ∈ seen then
      dupGo rest seen (if dupKey c ∈ dups then dups else dups ++ [dupKey c])
    else
      dupGo rest (seen ++ [dupKey c]) dups

/-- `verificar_duplicidade` (src/utils/messages.py 45-57). -/
def verificar_duplicidade (chamados : List DupRecord) :
    List (Option String × Option String) :=
  dupGo chamados [] []

/-- The record `{}` of the duplicate check: both identifiers missing. -/
def missingIdRecord : DupRecord := ⟨none, none⟩

/-! ## Inverse transition lookup (src/streamlit_app.py 350-361) -/

/-- The `to` object of a transition entry, restricted to its `name` entry. -/
structure ToField where
  name : Option String
deriving DecidableEq

/-- One entry of the `transitions` list read by the undo handler: `t["id"]`
and the `t.get("to", {})` object (field `toObj`, since `to` is reserved). -/
structure TransitionEntry where
  id : String
  toObj : Slot ToField
deriving DecidableEq

/-- Evaluation of `(t.get("to", {}) or {}).get("name")` (line 356): only a
present `to` object with a `name` entry yields a name; absence and null fall
back to the empty dict and give `None`. -/
def targetName (t : TransitionEntry) : Option String :=
  match t.toObj with
  | .val o => o.name
  | _ => none

/-- The undo handler's inverse lookup (lines 352-359): the id of the first
transition whose target status name equals the recorded prior status name,
`None` when there is none. -/
def computeInverse (trans : List TransitionEntry) (fromName : String) : Option String :=
  (trans.find? (fun t => targetName t == some fromName)).map TransitionEntry.id

/-- The transition list of the claim's example. -/
def exTransitions : List TransitionEntry :=
  [⟨"5", .val ⟨some "Agendado"⟩⟩, ⟨"6", .val ⟨some "TEC-CAMPO"⟩⟩]

/-! ## HTTP gateway operations (src/utils/jira_api.py) -/

/-- An HTTP response as the gateway's callers see it: the status code, the
parsed JSON body (payload `β`, read on success paths) and the `_safe_json(r)`
rendering used for error payloads. A gateway call's transport outcome is
`Except String (JsonResp β)`: `Except.error` is a raised
`requests.RequestException`. -/
structure JsonResp (β : Type) where
  status : Int
  body : β
  errText : String
deriving DecidableEq

/-- The extra `fields` dictionary a transition may carry. -/
abbrev TransFields := List (String × String)

/-- The payload `{"transition": {"id": str(transition_id)}, "fields"?}` of a
transition request (lines 223-225). -/
structure TransitionPayload where
  transitionId : String
  fields : Option TransFields
deriving DecidableEq

/-- A POST request to the transitions endpoint of an issue. -/
structure TransRequest where
  url : String
  payload : TransitionPayload
deriving DecidableEq

/-- The request `transicionar_status` builds (lines 222-225): the transitions
URL of the issue, and a `fields` payload entry only when the argument is
truthy (absent both for `None` and for the empty dict). -/
def mkTransRequest (base issue_key transition_id : String)
    (fields : Option TransFields) : TransRequest :=
  ⟨base ++ "/issue/" ++ issue_key ++ "/transitions",
   ⟨transition_id,
    match fields with
    | some f => if f = [] then none else some f
    | none => none⟩⟩

/-- `JiraAPI.transicionar_status` (src/utils/jira_api.py 221-226): builds the
transition request and performs it through `_req`, with no `try`/`except` —
the transport outcome, raised exception included, passes straight to the
caller. -/
def transicionar_status (base issue_key transition_id : String)
    (fields : Option TransFields)
    (net : TransRequest → Except String (JsonResp Unit)) :
    Except String (JsonResp Unit) :=
  net (mkTransRequest base issue_key transition_id fields)

/-- The Apply loop of `render_dashboard` (src/streamlit_app.py 557-563): one
`transicionar_status` call per selected key; a key counts as moved exactly
when its response status is 204, any other status appends `"key:status"` to
the error list. The result also carries the requests performed, in order —
one per key. An uncaught transport exception aborts the loop. -/
def applyBatch (base transition_id : String) (fields : Option TransFields)
    (net : String → TransRequest → Except String (JsonResp Unit)) :
    List String → Except String (List String × Nat × List TransRequest)
  | [] => Except.ok ([], 0, [])
  | k :: rest =>
    match transicionar_status base k transition_id fields (net k) with
    | .error e => .error e
    | .ok r =>
      match applyBatch base transition_id fields net rest with
      | .error e => .error e
      | .ok (errs, mv, reqs) =>
        if r.status = 204 then
          .ok (errs, mv + 1, mkTransRequest base k transition_id fields :: reqs)
        else
          .ok ((k ++ ":" ++ toString r.status) :: errs, mv,
               mkTransRequest base k transition_id fields :: reqs)

/-- The debug dict `whoami` returns (lines 94-100). -/
structure WhoDebug where
  url : String
  status : Int
  error : Option String
deriving DecidableEq

/-- `JiraAPI.whoami` (90-100): 200 yields the parsed body; another status
yields `None` plus the error payload; a transport exception is caught and
becomes the structured debug value with status `-1`, never re-raised. -/
def whoami {β : Type} (url : String) (net : Except String (JsonResp β)) :
    Option β × WhoDebug :=
  match net with
  | .ok r =>
    if r.status = 200 then (some r.body, ⟨url, r.status, none⟩)
    else (none, ⟨url, r.status, some r.errText⟩)
  | .error e => (none, ⟨url, -1, some e⟩)

/-- The result dict of `parse_jql` (102-114) and `count_jql` (116-128): url,
status, optional success payload, optional error payload. -/
structure OpDebug (β : Type) where
  url : String
  status : Int
  result : Option β
  error : Option String
deriving DecidableEq

/-- `JiraAPI.parse_jql` (102-114): a transport exception is caught and becomes
the structured `{url, status: -1, error}` value. -/
def parse_jql {β : Type} (url _jql : String) (net : Except String (JsonResp β)) :
    OpDebug β :=
  match net with
  | .ok r =>
    if r.status = 200 then ⟨url, r.status, some r.body, none⟩
    else ⟨url, r.status, none, some r.errText⟩
  | .error e => ⟨url, -1, none, some e⟩

/-- `JiraAPI.count_jql` (116-128): on 200, the `count` entry of the body with
default 0 (still `None` when the entry is null); a transport exception is
caught and becomes the structured value with status `-1`. -/
def count_jql (url _jql : String) (net : Except String (JsonResp (Slot Int))) :
    OpDebug (Option Int) :=
  match net with
  | .ok r =>
    if r.status = 200 then ⟨url, r.status, some (r.body.getD 0), none⟩
    else ⟨url, r.status, none, some r.errText⟩
  | .error e => ⟨url, -1, none, some e⟩

/-- `JiraAPI.get_transitions` (200-208): the `transitions` entry of a 200
body; any non-200 status or transport exception degrades to the empty
list. -/
def get_transitions (net : Except String (JsonResp (List TransitionEntry))) :
    List TransitionEntry :=
  match net with
  | .ok r => if r.status = 200 then r.body else []
  | .error _ => []

/-- `JiraAPI.get_issue` (210-219): the parsed body on 200; the empty dict
(`none`) on any other status or on a transport exception. -/
def get_issue {β : Type} (net : Except String (JsonResp β)) : Option β :=
  match net with
  | .ok r => if r.status = 200 then some r.body else none
  | .error _ => none

/-! ## Diagnostics recorder and pagination engine (src/utils/jira_api.py) -/

/-- The body of one POST to the search endpoint (lines 149-157): `jql`,
`maxResults`, `fields`, whether the `reconcileIssues` entry is present, and
the optional `nextPageToken` entry (`none` when the key is absent). -/
structure SearchBody where
  jql : String
  maxResults : Nat
  fields : List String
  reconcileIssues : Bool
  nextPageToken : Option String
deriving DecidableEq

/-- The params value `_set_debug` stores: the request body, with a `"method"`
entry merged in on the failure paths (lines 163, 175) but not on the success
path (line 178). -/
structure DebugParams where
  method : Option String
  body : SearchBody
deriving DecidableEq

/-- The six `last_*` attributes of a `JiraAPI` instance (lines 42-47). -/
structure DebugState where
  last_status : Option Int
  last_error : Option String
  last_url : Option String
  last_params : Option DebugParams
  last_count : Option Nat
  last_method : Option String
deriving DecidableEq

/-- The recorder right after `__init__` (lines 42-47): everything `None`. -/
def initDebugState : DebugState := ⟨none, none, none, none, none, none⟩

/-- `JiraAPI._set_debug` (lines 70-76): overwrites every recorder attribute,
ignoring the previous state. -/
def set_debug (_st : DebugState) (url : String) (params : Option DebugParams)
    (status : Int) (error : Option String) (count : Nat) (method : String) :
    DebugState :=
  ⟨some status, error, some url, params, some count, some method⟩

/-- Python truthiness of the optional cursor: `None` and the empty string are
falsy (`if next_page_token:` at line 156, `if not next_page_token:` at
line 172). -/
def truthy : Option String → Bool
  | none => false
  | some s => s != ""

/-- The constant arguments of one `buscar_chamados_enhanced` call: the search
URL (line 137) and the body fields repeated on every page request. -/
structure BuscarCfg where
  url : String
  jql : String
  page_size : Nat
  fields_list : List String
  reconcile : Bool
deriving DecidableEq

/-- The request body built at the top of each loop iteration (lines 149-157):
the `nextPageToken` entry is present only when the token in hand is truthy,
and then holds it verbatim. -/
def mkBody (cfg : BuscarCfg) (tok : Option String) : SearchBody :=
  ⟨cfg.jql, cfg.page_size, cfg.fields_list, cfg.reconcile,
   if truthy tok then tok else none⟩

/-- Lines 139-142: a comma-separated fields string is split on commas, each
part stripped, blanks dropped; a list argument is used as given. -/
def fieldsList : String ⊕ List String → List String
  | .inl s => ((s.splitOn ",").map String.trim).filter (fun f => f != "")
  | .inr l => l

/-- One mocked response of the search endpoint: either a raised
`requests.RequestException` with its message, or an HTTP response carrying
its status, the `issues` batch of its body (`data.get("issues", [])`), its
optional `nextPageToken` entry (`data.get("nextPageToken")`) and the
`_safe_json` error payload used when the status is not 200. -/
inductive PageResp (α : Type) where
  | exn (msg : String)
  | page (status : Int) (issues : List α) (next : Option String) (errText : String)
deriving DecidableEq

/-- The debug dict `buscar_chamados_enhanced` returns: on failure
`{url, params, status, error, count: 0, method}` (lines 164, 176), on success
`{url, status: 200, count, method}` (line 179, no params or error entry). -/
structure DebugRet where
  url : String
  params : Option SearchBody
  status : Int
  error : Option String
  count : Nat
  method : String
deriving DecidableEq

/-- Everything one `buscar_chamados_enhanced` call produces: the Python return
value `(issues, debug)`, the recorder state after the call, and the request
bodies POSTed, in order. -/
structure BuscarOut (α : Type) where
  issues : List α
  debug : DebugRet
  state : DebugState
  requests : List SearchBody
deriving DecidableEq

/-- The pagination loop (lines 148-177) plus the final `_set_debug` and return
(178-179), consuming one mocked response per iteration; `none` when the
mocked response list is exhausted while the loop still asks for a page. -/
def buscarGo {α : Type} (cfg : BuscarCfg) :
    List (PageResp α) → Option String → List α → DebugState → List SearchBody →
    Option (BuscarOut α)
  | [], _, _, _, _ => none
  | resp :: rest, tok, acc, st, reqs =>
    let body := mkBody cfg tok
    match resp with
    | .exn msg =>
      some ⟨[], ⟨cfg.url, some body, -1, some msg, 0, "POST"⟩,
            set_debug st cfg.url (some ⟨some "POST", body⟩) (-1) (some msg) 0 "POST",
            reqs ++ [body]⟩
    | .page status issues next errText =>
      if status = 200 then
        if truthy next then
          buscarGo cfg rest next (acc ++ issues) st (reqs ++ [body])
        else
          some ⟨acc ++ issues,
                ⟨cfg.url, none, 200, none, (acc ++ issues).length, "POST"⟩,
                set_debug st cfg.url (some ⟨none, body⟩) 200 none
                  (acc ++ issues).length "POST",
                reqs ++ [body]⟩
      else
        some ⟨[], ⟨cfg.url, some body, status, some errText, 0, "POST"⟩,
              set_debug st cfg.url (some ⟨some "POST", body⟩) status (some errText)
                0 "POST",
              reqs ++ [body]⟩

/-- `JiraAPI.buscar_chamados_enhanced` (lines 131-179) against a mocked
response chain: the loop starts with no token, no accumulated issues and no
requests made. -/
def buscar_chamados_enhanced {α : Type} (cfg : BuscarCfg) (st : DebugState)
    (net : List (PageResp α)) : Option (BuscarOut α) :=
  buscarGo cfg net none [] st []

/-- The `issues` batch of a response. -/
def pageIssues {α : Type} : PageResp α → List α
  | .page _ issues _ _ => issues
  | .exn _ => []

/-- The `nextPageToken` entry of a response. -/
def pageNext {α : Type} : PageResp α → Option String
  | .page _ _ next _ => next
  | .exn _ => none

/-- True when the response is an HTTP response with status 200. -/
def ok200 {α : Type} : PageResp α → Bool
  | .page s _ _ _ => s == 200
  | .exn _ => false

/-- A complete successful page chain: every response has status 200, every
response but the last carries a truthy cursor, and the last one a falsy
cursor. -/
def chainOk {α : Type} : List (PageResp α) → Bool
  | [] => false
  | [r] => ok200 r && !truthy (pageNext r)
  | r :: rest => ok200 r && truthy (pageNext r) && chainOk rest

/-- A chain that reaches a failing response: some prefix of 200 pages with
truthy cursors, then a non-200 response or a transport exception. -/
def chainFails {α : Type} : List (PageResp α) → Bool
  | [] => false
  | r :: rest => !ok200 r || (ok200 r && truthy (pageNext r) && chainFails rest)

/-- Concatenation of the page payloads, in page order. -/
def pagesJoin {α : Type} (net : List (PageResp α)) : List α :=
  (net.map pageIssues).flatten

/-- The request bodies the loop sends over a response chain, given the token
in hand before the first of them: each response's cursor feeds the next
request. -/
def chainReqs {α : Type} (cfg : BuscarCfg) :
    Option String → List (PageResp α) → List SearchBody
  | _, [] => []
  | tok, r :: rest => mkBody cfg tok :: chainReqs cfg (pageNext r) rest

/-- The token in hand when request `i` of a chain is built: the starting token
for `i = 0`, response `i - 1`'s cursor afterwards. -/
def tokenAt {α : Type} : Option String → List (PageResp α) → Nat → Option String
  | tok, _, 0 => tok
  | _, [], _ + 1 => none
  | _, r :: rest, i + 1 => tokenAt (pageNext r) rest i

/-- State-passing view of `whoami`: its body (lines 90-100) contains no
`_set_debug` call and no `last_*` assignment, so the recorder passes through
unchanged. -/
def whoamiS {β : Type} (url : String) (net : Except String (JsonResp β))
    (st : DebugState) : (Option β × WhoDebug) × DebugState :=
  (whoami url net, st)

/-- State-passing view of `parse_jql` (102-114): no recorder access. -/
def parse_jqlS {β : Type} (url jql : String) (net : Except String (JsonResp β))
    (st : DebugState) : OpDebug β × DebugState :=
  (parse_jql url jql net, st)

/-- State-passing view of `count_jql` (116-128): no recorder access. -/
def count_jqlS (url jql : String) (net : Except String (JsonResp (Slot Int)))
    (st : DebugState) : OpDebug (Option Int) × DebugState :=
  (count_jql url jql net, st)

/-- State-passing view of `get_transitions` (200-208): no recorder access. -/
def get_transitionsS (net : Except String (JsonResp (List TransitionEntry)))
    (st : DebugState) : List TransitionEntry × DebugState :=
  (get_transitions net, st)

/-- State-passing view of `get_issue` (210-219): no recorder access. -/
def get_issueS {β : Type} (net : Except String (JsonResp β))
    (st : DebugState) : Option β × DebugState :=
  (get_issue net, st)

/-- State-passing view of `transicionar_status` (221-226): no recorder
access. -/
def transicionar_statusS (base issue_key transition_id : String)
    (fields : Option TransFields)
    (net : TransRequest → Except String (JsonResp Unit))
    (st : DebugState) : Except String (JsonResp Unit) × DebugState :=
  (transicionar_status base issue_key transition_id fields net, st)

/-- The mocked two-page chain of the C1 witness: two issues then one issue,
linked by the cursor `"tok1"`. -/
def chainNetW : List (PageResp Nat) :=
  [.page 200 [1, 2] (some "tok1") "", .page 200 [3] none ""]

/-- The search configuration used by the pagination witnesses. -/
def cfgW : BuscarCfg :=
  ⟨"https://site.atlassian.net/rest/api/3/search/jql", "project = FSA", 100,
   ["status"], false⟩

/-- The chain of the C1 counterexample: the first response carries the
present-but-empty cursor `""`, the second page holds one more issue. -/
def cexNet : List (PageResp Nat) :=
  [.page 200 [10] (some "") "", .page 200 [20] none ""]

/-- The search configuration of the C1 counterexample. -/
def cexCfg : BuscarCfg :=
  ⟨"https://s.atlassian.net/rest/api/3/search/jql", "project = FSA", 50,
   ["status"], false⟩

/-- The chain of the C2 witness: one successful page with two issues, then a
500 response. -/
def failNetW : List (PageResp Nat) :=
  [.page 200 [1, 2] (some "tok1") "", .page 500 [] none "Internal error"]

/-! ## Theorems -/

lemma sumLens_addToGroup (gs : List (String × List Chamado)) (k : String) (c : Chamado) :
    sumLens (addToGroup gs k c) = sumLens gs + 1 := by
  induction gs with
  | nil => simp [addToGroup, sumLens]
  | cons p rest ih =>
    obtain ⟨k₀, cs⟩ := p
    by_cases h : k₀ = k <;> simp [addToGroup, h, sumLens] at ih ⊢ <;> omega

lemma groupOf_addToGroup (gs : List (String × List Chamado)) (k : String) (c : Chamado)
    (k₁ : String) :
    groupOf (addToGroup gs k c) k₁ =
      if k = k₁ then groupOf gs k₁ ++ [c] else groupOf gs k₁ := by
  induction gs with
  | nil => by_cases h : k = k₁ <;> simp [addToGroup, groupOf, h]
  | cons p rest ih =>
    obtain ⟨k₀, cs⟩ := p
    by_cases h : k₀ = k
    · subst h
      by_cases h₁ : k₀ = k₁ <;> simp [addToGroup, groupOf, h₁]
    · by_cases h₁ : k₀ = k₁
      · subst h₁
        have hne : ¬(k = k₀) := fun hk => h hk.symm
        simp [addToGroup, groupOf, h, hne]
      · simp [addToGroup, groupOf, h, h₁, ih]

lemma exceptOk_exists {ε α : Type} {x : Except ε α} (h : x.isOk = true) :
    ∃ a, x = Except.ok a := by
  cases x with
  | ok a => exact ⟨a, rfl⟩
  | error e => exact absurd h (by simp [Except.isOk, Except.toBool])

lemma agruparGo_ok (issues : List RawIssue) :
    ∀ gs : List (String × List Chamado), (∀ i ∈ issues, projectable i = true) →
      ∃ gs₂, agruparGo gs issues = Except.ok gs₂ ∧
        sumLens gs₂ = sumLens gs + issues.length ∧
        ∀ k, groupOf gs₂ k = groupOf gs k ++ chamadosOf issues k := by
  induction issues with
  | nil =>
    intro gs _
    exact ⟨gs, rfl, by simp, fun k => by simp [chamadosOf]⟩
  | cons i rest ih =>
    intro gs h
    have hi : projectable i = true := h i (by simp)
    obtain ⟨⟨loja, c⟩, hp⟩ := exceptOk_exists hi
    obtain ⟨gs₂, h1, h2, h3⟩ :=
      ih (addToGroup gs loja c) (fun j hj => h j (List.mem_cons_of_mem i hj))
    refine ⟨gs₂, ?_, ?_, ?_⟩
    · simp [agruparGo, hp, h1]
    · rw [h2, sumLens_addToGroup]
      simp [List.length_cons]
      omega
    · intro k
      rw [h3 k, groupOf_addToGroup]
      have hc : chamadosOf (i :: rest) k =
          (if loja = k then [c] else []) ++ chamadosOf rest k := by
        simp only [chamadosOf, List.filterMap_cons, hp]
        by_cases hlk : loja = k <;> simp [hlk, Except.toOption]
      rw [hc]
      by_cases hlk : loja = k <;> simp [hlk, List.append_assoc]

/-- C3 (amended): on every input list whose issues all project without an
`AttributeError` (no null-valued `fields` object and no null-valued
`customfield_14954`/`customfield_14825` select entry), `agrupar_chamados`
partitions the input: the total record count over all groups equals the input
length, and the group under each store key holds exactly the projections of
the input issues carrying that store key, in input order — so each issue is
placed exactly once, under exactly one key. -/
theorem agrupar_chamados_partitions (issues : List RawIssue)
    (h : ∀ i ∈ issues, projectable i = true) :
    ∃ gs, agrupar_chamados issues = Except.ok gs ∧
      sumLens gs = issues.length ∧
      ∀ k, groupOf gs k = chamadosOf issues k := by
  obtain ⟨gs, h1, h2, h3⟩ := agruparGo_ok issues [] h
  refine ⟨gs, h1, ?_, fun k => by simpa [groupOf] using h3 k⟩
  simpa [sumLens] using h2

theorem agrupar_chamados_partitions_witness :
    ∃ gs, agrupar_chamados [issueA, issueB] = Except.ok gs ∧
      sumLens gs = 2 ∧
      ∀ k, groupOf gs k = chamadosOf [issueA, issueB] k := by
  have h := agrupar_chamados_partitions [issueA, issueB] (by decide)
  simpa using h

/-- C3 counterexample: on an input list holding one issue whose store select
field is null, `agrupar_chamados` raises `AttributeError` (line 186) instead
of returning a grouped view, so no partition of the input exists — the claim
fails for that input list. -/
theorem agrupar_chamados_null_loja_cex :
    agrupar_chamados [badIssueNullLoja] = Except.error attributeError ∧
    (agrupar_chamados [badIssueNullLoja]).isOk = false := by
  exact ⟨rfl, rfl⟩

/-- C6 counterexample: on the issue `{}` (every field absent),
`agrupar_chamados` completes and files the record under the sentinel store key
`"Loja Desconhecida"`, but the record's `key` and `data_agendada` components
are `None` (absence), not a sentinel placeholder — refuting the claim that
every missing field of the fixed record projects to a sentinel, never to
absence. -/
theorem agrupar_chamados_absence_cex :
    agrupar_chamados [emptyRawIssue] =
      Except.ok [("Loja Desconhecida", [defaultChamado])] ∧
    defaultChamado.key = none ∧
    defaultChamado.data_agendada = none := by
  exact ⟨rfl, rfl, rfl⟩

lemma projectable_iff (i : RawIssue) : projectable i = noNullSelects i := by
  obtain ⟨k, f⟩ := i
  cases f with
  | absent => rfl
  | null => rfl
  | val m =>
    obtain ⟨c₁, c₂, c₃, c₄, c₅, c₆, c₇, c₈, c₉⟩ := m
    cases c₁ <;> cases c₃ <;> rfl

/-- C6 (amended): `agrupar_chamados` completes without failing on every input
whose `fields` objects and whose `customfield_14954`/`customfield_14825`
select entries are not null (a null there raises `AttributeError`, the code's
only failure mode). Missing `pdv`, `ativo`, `problema`, `endereco`, `estado`,
`cep` and `cidade` project to the sentinel `"--"` and a missing store field to
the sentinel key `"Loja Desconhecida"`, but the `key` and `data_agendada`
components of the fixed record default to `None` (absence), not to a
sentinel. -/
theorem agrupar_chamados_defaults :
    (∀ issues : List RawIssue, (∀ i ∈ issues, noNullSelects i = true) →
      ∃ gs, agrupar_chamados issues = Except.ok gs) ∧
    (∀ i : RawIssue, projectable i = noNullSelects i) ∧
    projectChamado emptyRawIssue = Except.ok ("Loja Desconhecida", defaultChamado) ∧
    defaultChamado.pdv = some "--" ∧ defaultChamado.ativo = "--" ∧
    defaultChamado.problema = some "--" ∧ defaultChamado.endereco = some "--" ∧
    defaultChamado.estado = "--" ∧ defaultChamado.cep = some "--" ∧
    defaultChamado.cidade = some "--" ∧
    defaultChamado.key = none ∧ defaultChamado.data_agendada = none := by
  refine ⟨?_, projectable_iff, rfl, rfl, rfl, rfl, rfl, rfl, rfl, rfl, rfl, rfl⟩
  intro issues h
  obtain ⟨gs, h1, -, -⟩ :=
    agruparGo_ok issues [] (fun i hi => (projectable_iff i).trans (h i hi))
  exact ⟨gs, h1⟩

lemma dupGo_mem (l : List DupRecord) :
    ∀ (seen dups : List (Option String × Option String))
      (k : Option String × Option String),
      (k ∈ dupGo l seen dups ↔
        k ∈ dups ∨ (if k ∈ seen then 1 else 2) ≤ (l.map dupKey).count k) := by
  induction l with
  | nil =>
    intro seen dups k
    have h : ¬((if k ∈ seen then 1 else 2) ≤ 0) := by split <;> omega
    simp [dupGo, h]
  | cons c rest ih =>
    intro seen dups k
    simp only [dupGo]
    by_cases hs : dupKey c ∈ seen
    · rw [if_pos hs, ih]
      by_cases hk : dupKey c = k
      · subst hk
        have hd : dupKey c ∈ (if dupKey c ∈ dups then dups else dups ++ [dupKey c]) := by
          split
          · assumption
          · simp
        rw [if_pos hs]
        constructor
        · intro _
          refine Or.inr ?_
          have hcnt : ((c :: rest).map dupKey).count (dupKey c) =
              (rest.map dupKey).count (dupKey c) + 1 := by
            simp [List.count_cons]
          omega
        · intro _
          exact Or.inl hd
      · have hne : k ≠ dupKey c := fun h => hk h.symm
        have hd : (k ∈ (if dupKey c ∈ dups then dups else dups ++ [dupKey c])) ↔
            k ∈ dups := by
          split
          · exact Iff.rfl
          · simp [hne]
        have hcnt : ((c :: rest).map dupKey).count k = (rest.map dupKey).count k := by
          simp [List.count_cons, hk]
        rw [hd, hcnt]
    · rw [if_neg hs, ih]
      by_cases hk : dupKey c = k
      · subst hk
        have h1 : dupKey c ∈ seen ++ [dupKey c] := by simp
        have hcnt : ((c :: rest).map dupKey).count (dupKey c) =
            (rest.map dupKey).count (dupKey c) + 1 := by
          simp [List.count_cons]
        rw [if_pos h1, if_neg hs, hcnt]
        exact or_congr Iff.rfl (by omega)
      · have hne : k ≠ dupKey c := fun h => hk h.symm
        have h1 : (k ∈ seen ++ [dupKey c]) ↔ k ∈ seen := by simp [hne]
        have hcnt : ((c :: rest).map dupKey).count k = (rest.map dupKey).count k := by
          simp [List.count_cons, hk]
        simp only [h1, hcnt]

/-- C9: `verificar_duplicidade` is a pure function returning exactly the set
of `(pdv, ativo)` keys appearing at least twice among the input records, and
on the input `[{pdv:"1",ativo:"A"}, {pdv:"1",ativo:"A"}, {pdv:"2",ativo:"B"}]`
it returns the one-element set containing `("1","A")`. -/
theorem verificar_duplicidade_spec :
    (∀ (l : List DupRecord) (k : Option String × Option String),
        k ∈ verificar_duplicidade l ↔ 2 ≤ (l.map dupKey).count k) ∧
    verificar_duplicidade
        [⟨some "1", some "A"⟩, ⟨some "1", some "A"⟩, ⟨some "2", some "B"⟩] =
      [(some "1", some "A")] := by
  constructor
  · intro l k
    simpa using dupGo_mem l [] [] k
  · decide

/-- C7 (code bug): two records whose `pdv` and `ativo` are both missing share
the key `(None, None)`, and `verificar_duplicidade` reports that key as a
duplicate — the source never excludes keys built from missing identifiers. -/
theorem verificar_duplicidade_missing_ids :
    verificar_duplicidade [missingIdRecord, missingIdRecord] = [(none, none)] := by
  decide

/-- C8: the inverse lookup scans the transitions for an entry whose target
status name equals the recorded prior status name and returns that entry's id,
returning `none` exactly when no entry matches; on the example list
`[{id:"5",to:{name:"Agendado"}},{id:"6",to:{name:"TEC-CAMPO"}}]` with prior
status `"Agendado"` it returns `"5"`. -/
theorem computeInverse_spec :
    (∀ (trans : List TransitionEntry) (s : String),
      (computeInverse trans s = none ↔ ∀ t ∈ trans, targetName t ≠ some s) ∧
      (∀ i, computeInverse trans s = some i →
        ∃ t ∈ trans, targetName t = some s ∧ t.id = i)) ∧
    computeInverse exTransitions "Agendado" = some "5" := by
  constructor
  · intro trans s
    constructor
    · simp [computeInverse, List.find?_eq_none]
    · intro i h
      simp only [computeInverse, Option.map_eq_some'] at h
      obtain ⟨t, ht, hid⟩ := h
      have h1 := List.mem_of_find?_eq_some ht
      have h2 := List.find?_some ht
      rw [beq_iff_eq] at h2
      exact ⟨t, h1, h2, hid⟩
  · decide

/-- C4: applying a transition is reported as success exactly when the remote
response status is 204. For any response status `s`, the Apply step for one
key counts it moved iff `s = 204`; every other status (200 and 400 included)
yields no move and the failure entry `"key:status"` carrying the status code;
and exactly one request is performed for the key — the transition is never
retried. -/
theorem applyTransition_success_iff_204 (base tid k : String)
    (fields : Option TransFields) (s : Int) (errText : String) :
    applyBatch base tid fields (fun _ _ => Except.ok ⟨s, (), errText⟩) [k] =
      Except.ok
        (if s = 204 then ([], 1, [mkTransRequest base k tid fields])
         else ([k ++ ":" ++ toString s], 0, [mkTransRequest base k tid fields])) := by
  by_cases h : s = 204 <;> simp [applyBatch, transicionar_status, h]

/-- C5 counterexample: a transport failure during `transicionar_status` is not
caught at the gateway boundary — the exception (`Except.error`, modelling a
raised `requests.RequestException`) propagates verbatim to the caller instead
of being converted into a structured failure value. `transicionar_status` is
the one gateway operation whose body has no `try`/`except`. -/
theorem transicionar_status_propagates_cex :
    transicionar_status "https://site.atlassian.net/rest/api/3" "FSA-1234" "5" none
      (fun _ => Except.error "ConnectionError: timeout") =
      Except.error "ConnectionError: timeout" := rfl

lemma chainReqs_length {α : Type} (cfg : BuscarCfg) :
    ∀ (net : List (PageResp α)) (tok : Option String),
      (chainReqs cfg tok net).length = net.length := by
  intro net
  induction net with
  | nil => intro tok; rfl
  | cons r rest ih => intro tok; simp [chainReqs, ih]

lemma tokenAt_succ {α : Type} :
    ∀ (net : List (PageResp α)) (tok : Option String) (i : Nat) (h : i < net.length),
      tokenAt tok net (i + 1) = pageNext (net.get ⟨i, h⟩) := by
  intro net
  induction net with
  | nil => intro tok i h; simp at h
  | cons r rest ih =>
    intro tok i h
    cases i with
    | zero => simp [tokenAt]
    | succ j =>
      have hj : j < rest.length := by simpa using h
      simpa [tokenAt] using ih (pageNext r) j hj

lemma chainReqs_get {α : Type} (cfg : BuscarCfg) :
    ∀ (net : List (PageResp α)) (tok : Option String) (i : Nat)
      (h : i < (chainReqs cfg tok net).length),
      (chainReqs cfg tok net).get ⟨i, h⟩ = mkBody cfg (tokenAt tok net i) := by
  intro net
  induction net with
  | nil => intro tok i h; simp [chainReqs] at h
  | cons r rest ih =>
    intro tok i h
    cases i with
    | zero => rfl
    | succ j =>
      have hj : j < (chainReqs cfg (pageNext r) rest).length := by
        simpa [chainReqs] using h
      simpa [chainReqs, tokenAt] using ih (pageNext r) j hj

lemma mkBody_token_of_truthy (cfg : BuscarCfg) (tok : Option String)
    (h : truthy tok = true) : (mkBody cfg tok).nextPageToken = tok := by
  simp [mkBody, h]

lemma mkBody_token_of_falsy (cfg : BuscarCfg) (tok : Option String)
    (h : truthy tok = false) : (mkBody cfg tok).nextPageToken = none := by
  simp [mkBody, h]

lemma chainOk_mid {α : Type} :
    ∀ (net : List (PageResp α)), chainOk net = true →
      ∀ (i : Nat) (h : i + 1 < net.length),
        truthy (pageNext (net.get ⟨i, Nat.lt_of_succ_lt h⟩)) = true := by
  intro net
  induction net with
  | nil => intro h i hi; simp at hi
  | cons r rest ih =>
    intro h i hi
    cases rest with
    | nil => simp at hi
    | cons r₂ rest₂ =>
      simp only [chainOk, Bool.and_eq_true] at h
      obtain ⟨⟨h1, h2⟩, h3⟩ := h
      cases i with
      | zero => simpa using h2
      | succ j =>
        have hj : j + 1 < (r₂ :: rest₂).length := by simpa using hi
        simpa using ih h3 j hj

lemma buscarGo_chain {α : Type} (cfg : BuscarCfg) :
    ∀ (net : List (PageResp α)) (tok : Option String) (acc : List α)
      (st : DebugState) (reqs : List SearchBody),
      chainOk net = true →
      ∃ dbg st₂,
        buscarGo cfg net tok acc st reqs =
          some ⟨acc ++ pagesJoin net, dbg, st₂, reqs ++ chainReqs cfg tok net⟩ ∧
        dbg.status = 200 ∧ dbg.error = none ∧
        dbg.count = (acc ++ pagesJoin net).length := by
  intro net
  induction net with
  | nil => intro tok acc st reqs h; simp [chainOk] at h
  | cons r rest ih =>
    intro tok acc st reqs h
    cases rest with
    | nil =>
      cases r with
      | exn msg => simp [chainOk, ok200] at h
      | page status issues next errText =>
        simp only [chainOk, ok200, pageNext, Bool.and_eq_true, beq_iff_eq,
          Bool.not_eq_eq_eq_not, Bool.not_true] at h
        obtain ⟨hs, hnt⟩ := h
        subst hs
        refine ⟨⟨cfg.url, none, 200, none, (acc ++ issues).length, "POST"⟩,
                set_debug st cfg.url (some ⟨none, mkBody cfg tok⟩) 200 none
                  (acc ++ issues).length "POST", ?_, rfl, rfl, ?_⟩
        · simp [buscarGo, hnt, pagesJoin, pageIssues, chainReqs]
        · simp [pagesJoin, pageIssues]
    | cons r₂ rest₂ =>
      cases r with
      | exn msg => simp [chainOk, ok200] at h
      | page status issues next errText =>
        simp only [chainOk, ok200, pageNext, Bool.and_eq_true, beq_iff_eq] at h
        obtain ⟨⟨hs, ht⟩, hc⟩ := h
        subst hs
        obtain ⟨dbg, st₂, heq, h1, h2, h3⟩ :=
          ih next (acc ++ issues) st (reqs ++ [mkBody cfg tok]) hc
        refine ⟨dbg, st₂, ?_, h1, h2, ?_⟩
        · have hstep :
              buscarGo cfg (PageResp.page 200 issues next errText :: r₂ :: rest₂)
                  tok acc st reqs =
                buscarGo cfg (r₂ :: rest₂) next (acc ++ issues) st
                  (reqs ++ [mkBody cfg tok]) := by
            simp [buscarGo, ht]
          rw [hstep, heq]
          simp [pagesJoin, pageIssues, pageNext, chainReqs, List.append_assoc]
        · simpa [pagesJoin, pageIssues, List.append_assoc] using h3

/-- C1 (amended): over every finite successful page chain — each response an
HTTP 200 carrying an `issues` batch, every response but the last a truthy
cursor and the last one no (or an empty) cursor — `buscar_chamados_enhanced`
returns the concatenation of all page payloads in page order, makes exactly
one request per page (stopping one call after the first response whose cursor
is absent or empty, Python truthiness conflating the two), sends no cursor in
the first request and threads each returned truthy cursor verbatim into the
body of the next request. -/
theorem buscar_chain_correct {α : Type} (cfg : BuscarCfg) (st : DebugState)
    (net : List (PageResp α)) (h : chainOk net = true) :
    ∃ out, buscar_chamados_enhanced cfg st net = some out ∧
      out.issues = pagesJoin net ∧
      out.requests = chainReqs cfg none net ∧
      out.requests.length = net.length ∧
      out.debug.status = 200 ∧ out.debug.error = none ∧
      out.debug.count = (pagesJoin net).length ∧
      (∀ h₀ : 0 < out.requests.length,
          (out.requests.get ⟨0, h₀⟩).nextPageToken = none) ∧
      (∀ (i : Nat) (h₁ : i + 1 < out.requests.length) (h₂ : i < net.length),
          (out.requests.get ⟨i + 1, h₁⟩).nextPageToken =
            pageNext (net.get ⟨i, h₂⟩)) := by
  obtain ⟨dbg, st₂, heq, h1, h2, h3⟩ := buscarGo_chain cfg net none [] st [] h
  refine ⟨⟨pagesJoin net, dbg, st₂, chainReqs cfg none net⟩, ?_, rfl, rfl, ?_,
          h1, h2, ?_, ?_, ?_⟩
  · simpa [buscar_chamados_enhanced] using heq
  · exact chainReqs_length cfg net none
  · simpa using h3
  · intro h₀
    have hg := chainReqs_get cfg net none 0 h₀
    have h00 : tokenAt (α := α) none net 0 = none := by cases net <;> rfl
    rw [hg, h00]
    exact mkBody_token_of_falsy cfg none rfl
  · intro i h₁ h₂
    have hg := chainReqs_get cfg net none (i + 1) h₁
    have hts := tokenAt_succ net none i h₂
    have h₁n : i + 1 < (chainReqs cfg none net).length := h₁
    have hlen : i + 1 < net.length := by
      have hl := chainReqs_length (α := α) cfg net none
      omega
    have hmid : truthy (pageNext (net.get ⟨i, h₂⟩)) = true := by
      simpa using chainOk_mid net h i hlen
    rw [hg, hts]
    exact mkBody_token_of_truthy cfg _ hmid

theorem buscar_chain_correct_witness :
    ∃ out, buscar_chamados_enhanced cfgW initDebugState chainNetW = some out ∧
      out.issues = pagesJoin chainNetW ∧
      out.requests = chainReqs cfgW none chainNetW ∧
      out.requests.length = chainNetW.length ∧
      out.debug.status = 200 ∧ out.debug.error = none ∧
      out.debug.count = (pagesJoin chainNetW).length ∧
      (∀ h₀ : 0 < out.requests.length,
          (out.requests.get ⟨0, h₀⟩).nextPageToken = none) ∧
      (∀ (i : Nat) (h₁ : i + 1 < out.requests.length) (h₂ : i < chainNetW.length),
          (out.requests.get ⟨i + 1, h₁⟩).nextPageToken =
            pageNext (chainNetW.get ⟨i, h₂⟩)) :=
  buscar_chain_correct cfgW initDebugState chainNetW (by decide)

/-- C1 counterexample: on a two-page chain whose first 200 response carries
the cursor `""` — a present cursor token — pagination stops after one call
and returns only the first batch `[10]`, with a single request sent, although
the concatenation of the chain's payloads is `[10, 20]`: the claim that
pagination never terminates while a cursor is present, and returns the
concatenation of all pages, fails because `if not next_page_token` treats the
empty-string token as absent. -/
theorem buscar_empty_cursor_cex :
    buscar_chamados_enhanced cexCfg initDebugState cexNet =
      some ⟨[10],
            ⟨"https://s.atlassian.net/rest/api/3/search/jql", none, 200, none, 1,
             "POST"⟩,
            ⟨some 200, none, some "https://s.atlassian.net/rest/api/3/search/jql",
             some ⟨none, ⟨"project = FSA", 50, ["status"], false, none⟩⟩,
             some 1, some "POST"⟩,
            [⟨"project = FSA", 50, ["status"], false, none⟩]⟩ ∧
    pagesJoin cexNet = [10, 20] ∧
    pageNext (PageResp.page 200 [10] (some "") "" : PageResp Nat) = some "" ∧
    ([10] : List Nat) ≠ [10, 20] := by
  refine ⟨by decide, rfl, rfl, by decide⟩

lemma buscarGo_fails {α : Type} (cfg : BuscarCfg) :
    ∀ (net : List (PageResp α)) (tok : Option String) (acc : List α)
      (st : DebugState) (reqs : List SearchBody),
      chainFails net = true →
      ∃ out, buscarGo cfg net tok acc st reqs = some out ∧
        out.issues = [] ∧ out.debug.url = cfg.url ∧ out.debug.method = "POST" ∧
        out.debug.status ≠ 200 ∧ out.debug.error.isSome = true ∧
        out.debug.count = 0 ∧ out.debug.params.isSome = true ∧
        out.requests.getLast? = out.debug.params := by
  intro net
  induction net with
  | nil => intro tok acc st reqs h; simp [chainFails] at h
  | cons r rest ih =>
    intro tok acc st reqs h
    cases r with
    | exn msg =>
      refine ⟨⟨[], ⟨cfg.url, some (mkBody cfg tok), -1, some msg, 0, "POST"⟩,
               set_debug st cfg.url (some ⟨some "POST", mkBody cfg tok⟩) (-1)
                 (some msg) 0 "POST",
               reqs ++ [mkBody cfg tok]⟩,
              rfl, rfl, rfl, rfl, ?_, rfl, rfl, rfl, ?_⟩
      · show ((-1 : Int)) ≠ 200
        decide
      · simp [List.getLast?_concat]
    | page status issues next errText =>
      by_cases hs : status = 200
      · subst hs
        have hok : ok200 (PageResp.page (α := α) 200 issues next errText) = true := by
          simp [ok200]
        simp only [chainFails, pageNext, hok, Bool.not_true, Bool.false_or,
          Bool.true_and, Bool.and_eq_true] at h
        obtain ⟨ht, hf⟩ := h
        obtain ⟨out, heq, hrest⟩ :=
          ih next (acc ++ issues) st (reqs ++ [mkBody cfg tok]) hf
        refine ⟨out, ?_, hrest⟩
        simpa [buscarGo, ht] using heq
      · refine ⟨⟨[], ⟨cfg.url, some (mkBody cfg tok), status, some errText, 0, "POST"⟩,
                 set_debug st cfg.url (some ⟨some "POST", mkBody cfg tok⟩) status
                   (some errText) 0 "POST",
                 reqs ++ [mkBody cfg tok]⟩,
                ?_, rfl, rfl, rfl, hs, rfl, rfl, rfl, ?_⟩
        · simp [buscarGo, hs]
        · simp [List.getLast?_concat]

/-- C2: over every page chain whose responses succeed (HTTP 200, truthy
cursor) up to a first failing response — a non-200 status or a raised
transport exception — `buscar_chamados_enhanced` returns the empty issue
list, no matter how many pages had already been accumulated, together with a
debug record describing the failing request: the search URL, the POST method,
the failing request's body as params, a non-200 status, an error payload and
count 0. It never returns a partial result. -/
theorem buscar_fail_all_or_nothing {α : Type} (cfg : BuscarCfg) (st : DebugState)
    (net : List (PageResp α)) (h : chainFails net = true) :
    ∃ out, buscar_chamados_enhanced cfg st net = some out ∧
      out.issues = [] ∧ out.debug.url = cfg.url ∧ out.debug.method = "POST" ∧
      out.debug.status ≠ 200 ∧ out.debug.error.isSome = true ∧
      out.debug.count = 0 ∧ out.debug.params.isSome = true ∧
      out.requests.getLast? = out.debug.params :=
  buscarGo_fails cfg net none [] st [] h

theorem buscar_fail_all_or_nothing_witness :
    ∃ out, buscar_chamados_enhanced cfgW initDebugState failNetW = some out ∧
      out.issues = [] ∧ out.debug.url = cfgW.url ∧ out.debug.method = "POST" ∧
      out.debug.status ≠ 200 ∧ out.debug.error.isSome = true ∧
      out.debug.count = 0 ∧ out.debug.params.isSome = true ∧
      out.requests.getLast? = out.debug.params :=
  buscar_fail_all_or_nothing cfgW initDebugState failNetW (by decide)

lemma buscarGo_state {α : Type} (cfg : BuscarCfg) :
    ∀ (net : List (PageResp α)) (tok : Option String) (acc : List α)
      (st : DebugState) (reqs : List SearchBody) (out : BuscarOut α),
      buscarGo cfg net tok acc st reqs = some out →
      out.state.last_url = some cfg.url ∧ out.state.last_method = some "POST" ∧
      out.state.last_status = some out.debug.status ∧
      out.state.last_error = out.debug.error ∧
      out.state.last_count = some out.debug.count ∧
      out.state.last_params.isSome = true := by
  intro net
  induction net with
  | nil => intro tok acc st reqs out h; simp [buscarGo] at h
  | cons r rest ih =>
    intro tok acc st reqs out h
    cases r with
    | exn msg =>
      cases Option.some.inj h
      exact ⟨rfl, rfl, rfl, rfl, rfl, rfl⟩
    | page status issues next errText =>
      by_cases hs : status = 200
      · subst hs
        by_cases ht : truthy next = true
        · have h2 : buscarGo cfg rest next (acc ++ issues) st
              (reqs ++ [mkBody cfg tok]) = some out := by
            simpa [buscarGo, ht] using h
          exact ih next (acc ++ issues) st (reqs ++ [mkBody cfg tok]) out h2
        · have ht₂ : truthy next = false := by
            simpa using ht
          have h2 : some (⟨acc ++ issues,
              ⟨cfg.url, none, 200, none, (acc ++ issues).length, "POST"⟩,
              set_debug st cfg.url (some ⟨none, mkBody cfg tok⟩) 200 none
                (acc ++ issues).length "POST",
              reqs ++ [mkBody cfg tok]⟩ : BuscarOut α) = some out := by
            simpa [buscarGo, ht₂] using h
          cases Option.some.inj h2
          exact ⟨rfl, rfl, rfl, rfl, rfl, rfl⟩
      · have h2 : some (⟨[],
            ⟨cfg.url, some (mkBody cfg tok), status, some errText, 0, "POST"⟩,
            set_debug st cfg.url (some ⟨some "POST", mkBody cfg tok⟩) status
              (some errText) 0 "POST",
            reqs ++ [mkBody cfg tok]⟩ : BuscarOut α) = some out := by
          simpa [buscarGo, hs] using h
        cases Option.some.inj h2
        exact ⟨rfl, rfl, rfl, rfl, rfl, rfl⟩

/-- C10 (amended): only `buscar_chamados_enhanced` overwrites the diagnostics
recorder — whenever it completes, the state holds the search URL, the POST
method, the status, error and count of its returned debug record, and a
params value; the six other gateway operations (`whoami`, `parse_jql`,
`count_jql`, `get_transitions`, `get_issue`, `transicionar_status`) never
touch the recorder: their state passes through unchanged, and they return
per-call debug dicts instead. -/
theorem recorder_overwritten_only_by_buscar :
    (∀ (β : Type) (url : String) (net : Except String (JsonResp β))
        (st : DebugState), (whoamiS url net st).2 = st) ∧
    (∀ (β : Type) (url jql : String) (net : Except String (JsonResp β))
        (st : DebugState), (parse_jqlS url jql net st).2 = st) ∧
    (∀ (url jql : String) (net : Except String (JsonResp (Slot Int)))
        (st : DebugState), (count_jqlS url jql net st).2 = st) ∧
    (∀ (net : Except String (JsonResp (List TransitionEntry)))
        (st : DebugState), (get_transitionsS net st).2 = st) ∧
    (∀ (β : Type) (net : Except String (JsonResp β)) (st : DebugState),
        (get_issueS net st).2 = st) ∧
    (∀ (base ik tid : String) (fields : Option TransFields)
        (net : TransRequest → Except String (JsonResp Unit)) (st : DebugState),
        (transicionar_statusS base ik tid fields net st).2 = st) ∧
    (∀ (α : Type) (cfg : BuscarCfg) (st : DebugState) (net : List (PageResp α))
        (out : BuscarOut α),
        buscar_chamados_enhanced cfg st net = some out →
        out.state.last_url = some cfg.url ∧ out.state.last_method = some "POST" ∧
        out.state.last_status = some out.debug.status ∧
        out.state.last_error = out.debug.error ∧
        out.state.last_count = some out.debug.count ∧
        out.state.last_params.isSome = true) :=
  ⟨fun _ _ _ _ => rfl, fun _ _ _ _ _ => rfl, fun _ _ _ _ => rfl,
   fun _ _ => rfl, fun _ _ _ => rfl, fun _ _ _ _ _ _ => rfl,
   fun _ cfg st net out h => buscarGo_state cfg net none [] st [] out h⟩

/-- C10 counterexample: `whoami` just performed a 200 GET of the `myself`
endpoint, yet the diagnostics state after the call is still the initial
all-`None` recorder — its `last_url` does not name the request just made (it
is `none`, not the URL of the call): `whoami` never calls `_set_debug`. -/
theorem whoami_not_recorded_cex :
    (whoamiS (β := Unit) "https://site.atlassian.net/rest/api/3/myself"
        (Except.ok ⟨200, (), ""⟩) initDebugState).2 = initDebugState ∧
    (whoamiS (β := Unit) "https://site.atlassian.net/rest/api/3/myself"
        (Except.ok ⟨200, (), ""⟩) initDebugState).2.last_url = none ∧
    (none : Option String) ≠ some "https://site.atlassian.net/rest/api/3/myself" := by
  refine ⟨rfl, rfl, by simp⟩

/-- C5 (amended): every gateway operation except `transicionar_status` catches
transport failures at the gateway boundary and converts them into its
structured failure value — `whoami`, `parse_jql` and `count_jql` into the
`{url, status: -1, error}` record, `buscar_chamados_enhanced` into the empty
result with the `-1`-status debug record, `get_transitions` and `get_issue`
into their neutral empty results; `transicionar_status` alone performs its
request with no `try`/`except`, so its transport failures propagate to the
caller unconverted. -/
theorem gateway_transport_conversion (e url jql : String) :
    (∀ β : Type, whoami (β := β) url (Except.error e) = (none, ⟨url, -1, some e⟩)) ∧
    (∀ β : Type, parse_jql (β := β) url jql (Except.error e) =
      ⟨url, -1, none, some e⟩) ∧
    count_jql url jql (Except.error e) = ⟨url, -1, none, some e⟩ ∧
    get_transitions (Except.error e) = [] ∧
    (∀ β : Type, get_issue (β := β) (Except.error e) = none) ∧
    (∀ (α : Type) (cfg : BuscarCfg) (st : DebugState),
        buscar_chamados_enhanced (α := α) cfg st [.exn e] =
          some ⟨[], ⟨cfg.url, some (mkBody cfg none), -1, some e, 0, "POST"⟩,
                set_debug st cfg.url (some ⟨some "POST", mkBody cfg none⟩) (-1)
                  (some e) 0 "POST",
                [mkBody cfg none]⟩) ∧
    (∀ (base ik tid : String) (fields : Option TransFields),
        transicionar_status base ik tid fields (fun _ => Except.error e) =
          Except.error e) :=
  ⟨fun _ => rfl, fun _ => rfl, rfl, rfl, fun _ => rfl, fun _ _ _ => rfl,
   fun _ _ _ _ => rfl⟩

end Jira
